import Mathlib

/-!
Verification of the ws-sws attendance web service (src/index.js) against its
design specification.

The service is an Express application with three relational tables (users,
sessions, emargement), bcrypt password hashing, and JWT bearer tokens. We give
a shallow embedding: each route handler becomes a pure Lean function from its
inputs and the store state to an HTTP response (and, for mutating routes, a new
store state). External library primitives are modelled as follows:
- bcrypt hashing and verification are abstract function parameters
  (hash : String -> String, verify : String -> String -> Bool), since the
  handlers only pipe values through them;
- the zod email well-formedness test is an abstract parameter
  emailValid : String -> Bool, for the same reason;
- jsonwebtoken signing and verification are modelled concretely: a signed
  token carries the claim set (id, role), an expiry timestamp, and a signature
  string computed deterministically from the secret and the claims; verify
  checks the signature and that the current time is before the expiry;
- the MySQL store is modelled as lists of typed rows together with the
  auto-increment counters. The schema constraints declared by the repository
  (UNIQUE email on users; the foreign keys sessions.formateur_id -> users.id,
  emargement.session_id -> sessions.id, emargement.etudiant_id -> users.id,
  with ON DELETE CASCADE) are enforced by the store operations, since a failed
  INSERT is observable through the 400 branch of each handler. Column type
  coercion (for example date parsing) is not modelled: request bodies are
  already typed values.

Role strings follow the source: "formateur" is the trainer role and
"etudiant" the student role.
-/

/-- A row of the users table: id, name, email (unique), password hash, role. -/
structure User where
  id : Nat
  name : String
  email : String
  password : String
  role : String
deriving DecidableEq, Repr

/-- A row of the sessions table: id, title, date, trainer reference. -/
structure Session where
  id : Nat
  title : String
  date : String
  formateur_id : Nat
deriving DecidableEq, Repr

/-- A row of the emargement (attendance) table. -/
structure Emargement where
  id : Nat
  session_id : Nat
  etudiant_id : Nat
  status : Bool
deriving DecidableEq, Repr

/-- The relational store: the three tables plus their auto-increment counters. -/
structure Store where
  users : List User
  sessions : List Session
  emargement : List Emargement
  nextUserId : Nat
  nextSessionId : Nat
  nextEmargementId : Nat
deriving DecidableEq, Repr

/-- The identity decoded from a verified token and attached to the request
context as req.user: the claim set signed at login, id and role. -/
structure Identity where
  id : Nat
  role : String
deriving DecidableEq, Repr

/-- A signed JWT: the claim set (id, role), the expiry timestamp added by the
expiresIn option, and the signature over secret and claims. -/
structure SignedToken where
  id : Nat
  role : String
  exp : Nat
  sig : String
deriving DecidableEq, Repr

/-- Deterministic model of the HMAC signature over the claims. -/
def mkSig (secret : String) (id : Nat) (role : String) (exp : Nat) : String :=
  secret ++ "." ++ toString id ++ "." ++ role ++ "." ++ toString exp

/-- jwt.sign with payload (id, role) and expiresIn one hour (3600 seconds),
taken at current time now. -/
def jwtSign (secret : String) (now : Nat) (id : Nat) (role : String) : SignedToken :=
  { id := id, role := role, exp := now + 3600,
    sig := mkSig secret id role (now + 3600) }

/-- jwt.verify: the decoded identity when the signature matches the secret and
the token is not expired, none otherwise. -/
def jwtVerify (tok : SignedToken) (secret : String) (now : Nat) : Option Identity :=
  if tok.sig == mkSig secret tok.id tok.role tok.exp && now < tok.exp then
    some { id := tok.id, role := tok.role }
  else
    none

/-- The authorization header, when present: the scheme word and, when the
header has a second space-separated part, the bearer token. Models
req.headers.authorization and its split at spaces. -/
structure AuthHeader where
  scheme : String
  token : Option SignedToken
deriving DecidableEq, Repr

/-- Convenience: a well-formed Bearer header around a token. -/
def bearer (tok : SignedToken) : Option AuthHeader :=
  some { scheme := "Bearer", token := some tok }

/-- req.headers.authorization?.split(" ")[1]: the token slot of the header,
undefined when the header is absent or has no second part. -/
def extractToken (hdr : Option AuthHeader) : Option SignedToken :=
  match hdr with
  | none => none
  | some a => a.token

/-- A response body: plain text, the login token JSON, a JSON array or object
of rows, or the message of a caught library or store error. -/
inductive RespBody where
  | text (s : String)
  | jsonToken (t : SignedToken)
  | jsonSessions (l : List Session)
  | jsonSession (s : Session)
  | jsonEmargement (l : List Emargement)
  | errText (s : String)
deriving DecidableEq, Repr

/-- An HTTP response: status code and body. -/
structure Response where
  status : Nat
  body : RespBody
deriving DecidableEq, Repr

/-- The authenticateJWT middleware: 403 "Access Denied" when no bearer token
can be extracted, 403 "Invalid Token" when verification fails, otherwise the
decoded identity is attached for the downstream handler. -/
def authenticateJWT (secret : String) (now : Nat) (hdr : Option AuthHeader) :
    Except Response Identity :=
  match extractToken hdr with
  | none => .error { status := 403, body := .text "Access Denied" }
  | some tok =>
    match jwtVerify tok secret now with
    | none => .error { status := 403, body := .text "Invalid Token" }
    | some user => .ok user

/-- The per-route role gate, mirroring the handlers that begin with
if req.user.role is not the required role then 403 "Access Denied". -/
def requireRole (required : String) (u : Identity) : Except Response Unit :=
  if u.role != required then
    .error { status := 403, body := .text "Access Denied" }
  else
    .ok ()

/-- Whether a role string is one of the two roles accepted by the zod enum. -/
def roleValid (r : String) : Bool :=
  r == "formateur" || r == "etudiant"

/-- The request body of POST /auth/signup. -/
structure SignupBody where
  name : String
  email : String
  password : String
  role : String
deriving DecidableEq, Repr

/-- userSchema.parse: name nonempty, email well-formed (abstract test),
password at least 6 characters, role in the enum. -/
def userSchemaCheck (emailValid : String → Bool) (b : SignupBody) : Bool :=
  decide (1 ≤ b.name.length) && emailValid b.email &&
    decide (6 ≤ b.password.length) && roleValid b.role

/-- POST /auth/signup: validate the body with userSchema, hash the password,
insert the user row. A zod failure or a store failure (the UNIQUE email
constraint) is caught and answered with 400 and the error message. -/
def postAuthSignup (emailValid : String → Bool) (hash : String → String)
    (b : SignupBody) (st : Store) : Response × Store :=
  if userSchemaCheck emailValid b then
    if st.users.any (fun u => u.email == b.email) then
      ({ status := 400, body := .errText "Duplicate entry for key email" }, st)
    else
      ({ status := 201, body := .text "User registered successfully" },
       { st with
          users := st.users ++
            [{ id := st.nextUserId, name := b.name, email := b.email,
               password := hash b.password, role := b.role }],
          nextUserId := st.nextUserId + 1 })
  else
    ({ status := 400, body := .errText "zod validation error" }, st)

/-- SELECT * FROM users WHERE email = ? followed by rows[0]. -/
def findUserByEmail (st : Store) (email : String) : Option User :=
  (st.users.filter (fun u => u.email == email)).head?

/-- POST /auth/login: look the user up by email; when no row matches or bcrypt
verification rejects the password, answer 401 "Invalid email or password";
otherwise sign a token over the user id and role with a one-hour expiry. -/
def postAuthLogin (verify : String → String → Bool) (secret : String) (now : Nat)
    (email password : String) (st : Store) : Response :=
  match findUserByEmail st email with
  | none => { status := 401, body := .text "Invalid email or password" }
  | some user =>
    if verify password user.password then
      { status := 200, body := .jsonToken (jwtSign secret now user.id user.role) }
    else
      { status := 401, body := .text "Invalid email or password" }

/-- INSERT INTO sessions (title, date, formateur_id): succeeds appending a row
with the next auto-increment id, unless the foreign key on formateur_id fails. -/
def insertSession (title date : String) (fid : Nat) (st : Store) : Response × Store :=
  if st.users.any (fun u => u.id == fid) then
    ({ status := 201, body := .text "Session created successfully" },
     { st with
        sessions := st.sessions ++
          [{ id := st.nextSessionId, title := title, date := date, formateur_id := fid }],
        nextSessionId := st.nextSessionId + 1 })
  else
    ({ status := 400, body := .errText "foreign key constraint fails" }, st)

/-- POST /sessions: authenticate, require the trainer role, then insert the
session with formateur_id taken from the caller identity. -/
def postSessions (secret : String) (now : Nat) (hdr : Option AuthHeader)
    (title date : String) (st : Store) : Response × Store :=
  match authenticateJWT secret now hdr with
  | .error r => (r, st)
  | .ok user =>
    match requireRole "formateur" user with
    | .error r => (r, st)
    | .ok _ => insertSession title date user.id st

/-- GET /sessions: SELECT * FROM sessions; 404 "Session not found" when the
result set is empty, otherwise 200 with the row array. Read-only. -/
def getSessions (st : Store) : Response :=
  if st.sessions.length == 0 then
    { status := 404, body := .text "Session not found" }
  else
    { status := 200, body := .jsonSessions st.sessions }

/-- GET /sessions/:id: SELECT * FROM sessions WHERE id = ?; 404 when no row
matches, otherwise 200 with rows[0]. Read-only. -/
def getSessionById (id : Nat) (st : Store) : Response :=
  match (st.sessions.filter (fun s => s.id == id)).head? with
  | none => { status := 404, body := .text "Session not found" }
  | some s => { status := 200, body := .jsonSession s }

/-- PUT /sessions/:id: authenticate, require the trainer role, then
UPDATE sessions SET title = ?, date = ? WHERE id = ? and answer 200
regardless of how many rows were affected. No ownership check relates the
caller to the session row. -/
def putSessionById (secret : String) (now : Nat) (hdr : Option AuthHeader)
    (id : Nat) (title date : String) (st : Store) : Response × Store :=
  match authenticateJWT secret now hdr with
  | .error r => (r, st)
  | .ok user =>
    match requireRole "formateur" user with
    | .error r => (r, st)
    | .ok _ =>
      ({ status := 200, body := .text "Session updated successfully" },
       { st with
          sessions := st.sessions.map (fun s =>
            if s.id == id then { s with title := title, date := date } else s) })

/-- DELETE /sessions/:id: authenticate, require the trainer role, then
DELETE FROM sessions WHERE id = ? and answer 200 regardless of how many rows
were affected. The schema cascades the delete to the emargement rows of the
session. -/
def deleteSessionById (secret : String) (now : Nat) (hdr : Option AuthHeader)
    (id : Nat) (st : Store) : Response × Store :=
  match authenticateJWT secret now hdr with
  | .error r => (r, st)
  | .ok user =>
    match requireRole "formateur" user with
    | .error r => (r, st)
    | .ok _ =>
      ({ status := 200, body := .text "Session deleted successfully" },
       { st with
          sessions := st.sessions.filter (fun s => !(s.id == id)),
          emargement := st.emargement.filter (fun e => !(e.session_id == id)) })

/-- INSERT INTO emargement (session_id, etudiant_id, status): succeeds
appending a row with the next auto-increment id, unless one of the two
foreign keys fails. No uniqueness constraint exists on the pair
(session_id, etudiant_id). -/
def insertEmargement (sid : Nat) (uid : Nat) (status : Bool) (st : Store) :
    Response × Store :=
  if st.sessions.any (fun s => s.id == sid) && st.users.any (fun u => u.id == uid) then
    ({ status := 201, body := .text "Attendance marked successfully" },
     { st with
        emargement := st.emargement ++
          [{ id := st.nextEmargementId, session_id := sid, etudiant_id := uid,
             status := status }],
        nextEmargementId := st.nextEmargementId + 1 })
  else
    ({ status := 400, body := .errText "foreign key constraint fails" }, st)

/-- POST /sessions/:id/emargement: authenticate, require the student role,
then insert the attendance row with etudiant_id taken from the caller
identity. -/
def postEmargement (secret : String) (now : Nat) (hdr : Option AuthHeader)
    (sid : Nat) (status : Bool) (st : Store) : Response × Store :=
  match authenticateJWT secret now hdr with
  | .error r => (r, st)
  | .ok user =>
    match requireRole "etudiant" user with
    | .error r => (r, st)
    | .ok _ => insertEmargement sid user.id status st

/-- GET /sessions/:id/emargement: authenticate, require the trainer role, then
SELECT * FROM emargement WHERE session_id = ? and answer 200 with the
(possibly empty) row array. Read-only. -/
def getEmargement (secret : String) (now : Nat) (hdr : Option AuthHeader)
    (sid : Nat) (st : Store) : Response :=
  match authenticateJWT secret now hdr with
  | .error r => r
  | .ok user =>
    match requireRole "formateur" user with
    | .error r => r
    | .ok _ =>
      { status := 200,
        body := .jsonEmargement (st.emargement.filter (fun e => e.session_id == sid)) }

/-- The foreign-key invariant of the emargement table: every attendance row
references an existing session. Holds in every store reachable through the
handlers, by the schema foreign keys and cascade deletes. -/
def emargementFKOk (st : Store) : Bool :=
  st.emargement.all (fun e => st.sessions.any (fun s => s.id == e.session_id))

/-! ## Shared concrete fixtures for witnesses -/

/-- A store with one trainer (id 1), one student (id 2), and one session
(id 10) owned by trainer 1. -/
def exStore : Store :=
  { users :=
      [{ id := 1, name := "Alice", email := "alice@example.com",
         password := "HASHpw123456", role := "formateur" },
       { id := 2, name := "Bob", email := "bob@example.com",
         password := "HASHpw654321", role := "etudiant" }],
    sessions := [{ id := 10, title := "Lean", date := "2025-01-01", formateur_id := 1 }],
    emargement := [],
    nextUserId := 3, nextSessionId := 11, nextEmargementId := 1 }

/-- A store with all three tables empty. -/
def emptyStore : Store :=
  { users := [], sessions := [], emargement := [],
    nextUserId := 1, nextSessionId := 1, nextEmargementId := 1 }

/-! ## Claims -/

/-- C1: for every stored user set, login answers the same observable failure,
HTTP 401 with body "Invalid email or password", whether no user row matches
the email or a row matches but hash verification of the password fails; the
two failure causes are indistinguishable to the caller. -/
theorem login_failure_indistinguishable
    (verify : String → String → Bool) (secret : String) (now : Nat)
    (email password : String) (st : Store)
    (h : findUserByEmail st email = none ∨
      ∃ u, findUserByEmail st email = some u ∧ verify password u.password = false) :
    postAuthLogin verify secret now email password st =
      { status := 401, body := .text "Invalid email or password" } := by
  rcases h with h | ⟨u, hu, hv⟩
  · simp [postAuthLogin, h]
  · simp [postAuthLogin, hu, hv]

/-- C1 witness: in a concrete store holding only the user alice, the unknown
email bob and the known email alice with a wrong password produce the very
same 401 response. -/
theorem login_failure_indistinguishable_witness :
    postAuthLogin (fun p h => ("HASH" ++ p) == h) "s" 0 "carol@example.com" "pw123456"
        exStore = { status := 401, body := .text "Invalid email or password" } ∧
    postAuthLogin (fun p h => ("HASH" ++ p) == h) "s" 0 "alice@example.com" "wrongpw"
        exStore = { status := 401, body := .text "Invalid email or password" } :=
  ⟨login_failure_indistinguishable _ _ _ _ _ _ (Or.inl (by decide)),
   login_failure_indistinguishable _ _ _ _ _ _
     (Or.inr ⟨{ id := 1, name := "Alice", email := "alice@example.com",
                password := "HASHpw123456", role := "formateur" },
       by decide, by decide⟩)⟩

/-- C2: a request carrying a valid token of role etudiant (student) against
each trainer-only route answers 403 and leaves the store unchanged; a valid
token of role formateur (trainer) against the student-only attendance route
answers 403 and leaves the store unchanged; and a token carrying the required
role passes the per-route role gate. -/
theorem role_gate
    (secret : String) (now : Nat) (st : Store)
    (stok ttok : SignedToken) (suid tuid : Nat)
    (hs : jwtVerify stok secret now = some { id := suid, role := "etudiant" })
    (ht : jwtVerify ttok secret now = some { id := tuid, role := "formateur" })
    (title date : String) (sid : Nat) (status : Bool) :
    postSessions secret now (bearer stok) title date st =
      ({ status := 403, body := .text "Access Denied" }, st) ∧
    putSessionById secret now (bearer stok) sid title date st =
      ({ status := 403, body := .text "Access Denied" }, st) ∧
    deleteSessionById secret now (bearer stok) sid st =
      ({ status := 403, body := .text "Access Denied" }, st) ∧
    getEmargement secret now (bearer stok) sid st =
      { status := 403, body := .text "Access Denied" } ∧
    postEmargement secret now (bearer ttok) sid status st =
      ({ status := 403, body := .text "Access Denied" }, st) ∧
    requireRole "formateur" { id := tuid, role := "formateur" } = .ok () ∧
    requireRole "etudiant" { id := suid, role := "etudiant" } = .ok () := by
  refine ⟨?_, ?_, ?_, ?_, ?_, ?_, ?_⟩ <;>
    simp [postSessions, putSessionById, deleteSessionById, getEmargement,
      postEmargement, authenticateJWT, extractToken, bearer, requireRole, hs, ht]

/-- C2 witness: concrete tokens signed at time 0 for the student (id 2) and
the trainer (id 1) of the fixture store exercise every conjunct. -/
theorem role_gate_witness :
    postSessions "s" 0 (bearer (jwtSign "s" 0 2 "etudiant")) "T" "2025-01-02" exStore =
      ({ status := 403, body := .text "Access Denied" }, exStore) ∧
    putSessionById "s" 0 (bearer (jwtSign "s" 0 2 "etudiant")) 10 "T" "2025-01-02" exStore =
      ({ status := 403, body := .text "Access Denied" }, exStore) ∧
    deleteSessionById "s" 0 (bearer (jwtSign "s" 0 2 "etudiant")) 10 exStore =
      ({ status := 403, body := .text "Access Denied" }, exStore) ∧
    getEmargement "s" 0 (bearer (jwtSign "s" 0 2 "etudiant")) 10 exStore =
      { status := 403, body := .text "Access Denied" } ∧
    postEmargement "s" 0 (bearer (jwtSign "s" 0 1 "formateur")) 10 true exStore =
      ({ status := 403, body := .text "Access Denied" }, exStore) ∧
    requireRole "formateur" { id := 1, role := "formateur" } = .ok () ∧
    requireRole "etudiant" { id := 2, role := "etudiant" } = .ok () :=
  role_gate "s" 0 exStore (jwtSign "s" 0 2 "etudiant") (jwtSign "s" 0 1 "formateur")
    2 1 (by decide) (by decide) "T" "2025-01-02" 10 true

/-- C3: on every protected route, a request from which no bearer token can be
extracted, or whose token fails verification, is answered 403 and the store is
untouched (the downstream handler never runs); a token past its expiry or with
a wrong signature always fails verification; and on a valid token the decoded
identity of id and role is handed to the downstream handler. -/
theorem access_guard
    (secret : String) (now : Nat) (st : Store)
    (title date : String) (sid : Nat) (status : Bool) :
    (∀ hdr, extractToken hdr = none →
      postSessions secret now hdr title date st =
        ({ status := 403, body := .text "Access Denied" }, st) ∧
      putSessionById secret now hdr sid title date st =
        ({ status := 403, body := .text "Access Denied" }, st) ∧
      deleteSessionById secret now hdr sid st =
        ({ status := 403, body := .text "Access Denied" }, st) ∧
      postEmargement secret now hdr sid status st =
        ({ status := 403, body := .text "Access Denied" }, st) ∧
      getEmargement secret now hdr sid st =
        { status := 403, body := .text "Access Denied" }) ∧
    (∀ hdr tok, extractToken hdr = some tok → jwtVerify tok secret now = none →
      postSessions secret now hdr title date st =
        ({ status := 403, body := .text "Invalid Token" }, st) ∧
      putSessionById secret now hdr sid title date st =
        ({ status := 403, body := .text "Invalid Token" }, st) ∧
      deleteSessionById secret now hdr sid st =
        ({ status := 403, body := .text "Invalid Token" }, st) ∧
      postEmargement secret now hdr sid status st =
        ({ status := 403, body := .text "Invalid Token" }, st) ∧
      getEmargement secret now hdr sid st =
        { status := 403, body := .text "Invalid Token" }) ∧
    (∀ tok, tok.exp ≤ now → jwtVerify tok secret now = none) ∧
    (∀ tok, tok.sig ≠ mkSig secret tok.id tok.role tok.exp →
      jwtVerify tok secret now = none) ∧
    (∀ hdr tok u, extractToken hdr = some tok → jwtVerify tok secret now = some u →
      authenticateJWT secret now hdr = .ok u) := by
  refine ⟨?_, ?_, ?_, ?_, ?_⟩
  · intro hdr h
    refine ⟨?_, ?_, ?_, ?_, ?_⟩ <;>
      simp [postSessions, putSessionById, deleteSessionById, postEmargement,
        getEmargement, authenticateJWT, h]
  · intro hdr tok h hv
    refine ⟨?_, ?_, ?_, ?_, ?_⟩ <;>
      simp [postSessions, putSessionById, deleteSessionById, postEmargement,
        getEmargement, authenticateJWT, h, hv]
  · intro tok h
    simp only [jwtVerify, ite_eq_right_iff]
    intro hc
    rcases Bool.and_eq_true _ _ |>.mp hc with ⟨_, hlt⟩
    exact absurd (Nat.lt_of_lt_of_le (of_decide_eq_true hlt) h) (Nat.lt_irrefl now)
  · intro tok h
    simp only [jwtVerify, ite_eq_right_iff]
    intro hc
    rcases Bool.and_eq_true _ _ |>.mp hc with ⟨hsig, _⟩
    exact absurd (of_decide_eq_true hsig) h
  · intro hdr tok u h hv
    simp [authenticateJWT, h, hv]

/-- C3 witness: the absent header, an expired concrete token, and a concrete
token with a forged signature are all rejected with 403 on a protected route
without touching the fixture store, and a fresh valid token is decoded to the
identity it was signed over. -/
theorem access_guard_witness :
    postSessions "s" 7200 none "T" "2025-01-02" exStore =
      ({ status := 403, body := .text "Access Denied" }, exStore) ∧
    jwtVerify (jwtSign "s" 0 1 "formateur") "s" 7200 = none ∧
    postSessions "s" 7200 (bearer (jwtSign "s" 0 1 "formateur")) "T" "2025-01-02" exStore =
      ({ status := 403, body := .text "Invalid Token" }, exStore) ∧
    jwtVerify { id := 1, role := "formateur", exp := 9000, sig := "forged" } "s" 7200 = none ∧
    authenticateJWT "s" 7200 (bearer (jwtSign "s" 7200 1 "formateur")) =
      .ok { id := 1, role := "formateur" } :=
  ⟨((access_guard "s" 7200 exStore "T" "2025-01-02" 10 true).1 none rfl).1,
   (access_guard "s" 7200 exStore "T" "2025-01-02" 10 true).2.2.1
     (jwtSign "s" 0 1 "formateur") (by decide),
   ((access_guard "s" 7200 exStore "T" "2025-01-02" 10 true).2.1
     (bearer (jwtSign "s" 0 1 "formateur")) (jwtSign "s" 0 1 "formateur") rfl
     (by decide)).1,
   (access_guard "s" 7200 exStore "T" "2025-01-02" 10 true).2.2.2.1
     { id := 1, role := "formateur", exp := 9000, sig := "forged" } (by decide),
   (access_guard "s" 7200 exStore "T" "2025-01-02" 10 true).2.2.2.2
     (bearer (jwtSign "s" 7200 1 "formateur")) (jwtSign "s" 7200 1 "formateur")
     { id := 1, role := "formateur" } rfl (by decide)⟩

/-- C4: the session list route answers 404 "Session not found" exactly when
the sessions table is empty and 200 with the full row array otherwise; an
empty table is never answered with 200 and an empty array. -/
theorem sessions_list_empty_is_404 (st : Store) :
    (st.sessions = [] →
      getSessions st = { status := 404, body := .text "Session not found" }) ∧
    (st.sessions ≠ [] →
      getSessions st = { status := 200, body := .jsonSessions st.sessions }) ∧
    getSessions st ≠ { status := 200, body := .jsonSessions [] } := by
  by_cases he : st.sessions = []
  · refine ⟨fun _ => by simp [getSessions, he], fun h => absurd he h, fun h => ?_⟩
    simp [getSessions, he] at h
  · refine ⟨fun h => absurd h he, fun _ => ?_, fun h => ?_⟩
    · simp [getSessions, List.length_eq_zero, he]
    · simp [getSessions, List.length_eq_zero, he] at h

/-- C4 witness: the empty store is answered 404, the fixture store 200 with
its single session, and neither equals 200 with an empty array. -/
theorem sessions_list_empty_is_404_witness :
    getSessions emptyStore = { status := 404, body := .text "Session not found" } ∧
    getSessions exStore = { status := 200, body := .jsonSessions exStore.sessions } ∧
    getSessions exStore ≠ { status := 200, body := .jsonSessions [] } :=
  ⟨(sessions_list_empty_is_404 _).1 rfl,
   (sessions_list_empty_is_404 exStore).2.1 (by decide),
   (sessions_list_empty_is_404 exStore).2.2⟩

/-- A store with one student (id 2) and no sessions. -/
def noSessionStore : Store :=
  { users :=
      [{ id := 2, name := "Bob", email := "bob@example.com",
         password := "HASHpw654321", role := "etudiant" }],
    sessions := [], emargement := [],
    nextUserId := 3, nextSessionId := 1, nextEmargementId := 1 }

/-- C5 counterexample: against the fixture store, a payload that satisfies all
four schema rules but reuses the stored email alice@example.com is answered
400 by the UNIQUE email constraint and no user row is inserted, where the
claim promises 201 and an insert for every payload satisfying the rules. -/
theorem signup_duplicate_email_counterexample :
    userSchemaCheck (fun e => e.data.contains '@')
      { name := "Carol", email := "alice@example.com",
        password := "pw123456", role := "etudiant" } = true ∧
    (postAuthSignup (fun e => e.data.contains '@') (fun p => "HASH" ++ p)
      { name := "Carol", email := "alice@example.com",
        password := "pw123456", role := "etudiant" } exStore).1.status = 400 ∧
    (postAuthSignup (fun e => e.data.contains '@') (fun p => "HASH" ++ p)
      { name := "Carol", email := "alice@example.com",
        password := "pw123456", role := "etudiant" } exStore).2 = exStore := by
  decide

/-- C5 (amended): signup answers 400 and inserts no row whenever the name is
empty, the email fails the well-formedness test, the password is shorter than
6, or the role is outside the enum; on a payload satisfying all four rules
whose email no stored user already holds, it hashes the password and appends
exactly one user row, answering 201 with a fixed text body that echoes no
data. -/
theorem signup_validation_and_insert
    (emailValid : String → Bool) (hash : String → String)
    (b : SignupBody) (st : Store) :
    ((b.name.length = 0 ∨ emailValid b.email = false ∨ b.password.length < 6 ∨
        roleValid b.role = false) →
      (postAuthSignup emailValid hash b st).1.status = 400 ∧
      (postAuthSignup emailValid hash b st).2 = st) ∧
    (userSchemaCheck emailValid b = true →
      st.users.any (fun u => u.email == b.email) = false →
      postAuthSignup emailValid hash b st =
        ({ status := 201, body := .text "User registered successfully" },
         { st with
            users := st.users ++
              [{ id := st.nextUserId, name := b.name, email := b.email,
                 password := hash b.password, role := b.role }],
            nextUserId := st.nextUserId + 1 })) := by
  constructor
  · intro h
    cases hval : userSchemaCheck emailValid b with
    | false => simp [postAuthSignup, hval]
    | true =>
      exfalso
      simp only [userSchemaCheck, Bool.and_eq_true, decide_eq_true_eq] at hval
      obtain ⟨⟨⟨h1, h2⟩, h3⟩, h4⟩ := hval
      rcases h with h | h | h | h
      · omega
      · rw [h] at h2; exact absurd h2 (by decide)
      · omega
      · rw [h] at h4; exact absurd h4 (by decide)
  · intro hval hdup
    simp [postAuthSignup, hval, hdup]

/-- C5 witness: the fixture store rejects an empty name with 400 and nothing
inserted, and accepts a fresh valid payload with 201 and exactly the new row
appended. -/
theorem signup_validation_and_insert_witness :
    ((postAuthSignup (fun e => e.data.contains '@') (fun p => "HASH" ++ p)
        { name := "", email := "carol@example.com",
          password := "pw123456", role := "etudiant" } exStore).1.status = 400 ∧
      (postAuthSignup (fun e => e.data.contains '@') (fun p => "HASH" ++ p)
        { name := "", email := "carol@example.com",
          password := "pw123456", role := "etudiant" } exStore).2 = exStore) ∧
    postAuthSignup (fun e => e.data.contains '@') (fun p => "HASH" ++ p)
        { name := "Carol", email := "carol@example.com",
          password := "pw123456", role := "etudiant" } exStore =
      ({ status := 201, body := .text "User registered successfully" },
       { exStore with
          users := exStore.users ++
            [{ id := 3, name := "Carol", email := "carol@example.com",
               password := "HASHpw123456", role := "etudiant" }],
          nextUserId := 4 }) :=
  ⟨(signup_validation_and_insert _ _ _ _).1 (Or.inl (by decide)),
   (signup_validation_and_insert _ _ _ _).2 (by decide) (by decide)⟩

/-- C6 counterexample: with a student (id 2) stored but no session, marking
attendance for session id 10 is answered 400 by the foreign key on session_id
and no row is inserted, where the claim promises success for every session
id. -/
theorem markAttendance_missing_session_counterexample :
    (postEmargement "s" 0 (bearer (jwtSign "s" 0 2 "etudiant")) 10 true
      noSessionStore).1.status = 400 ∧
    (postEmargement "s" 0 (bearer (jwtSign "s" 0 2 "etudiant")) 10 true
      noSessionStore).2 = noSessionStore := by
  decide

/-- C6 (amended): for every stored session and every student caller whose user
row exists, marking attendance twice for the same session/student pair
succeeds both times and appends two attendance rows that are distinct (their
auto-increment ids differ); no uniqueness check collapses the repetition. -/
theorem markAttendance_twice_two_rows
    (secret : String) (now : Nat) (st : Store) (tok : SignedToken)
    (uid sid : Nat) (status : Bool)
    (hv : jwtVerify tok secret now = some { id := uid, role := "etudiant" })
    (hsess : st.sessions.any (fun s => s.id == sid) = true)
    (huser : st.users.any (fun u => u.id == uid) = true) :
    (postEmargement secret now (bearer tok) sid status st).1.status = 201 ∧
    (postEmargement secret now (bearer tok) sid status
      (postEmargement secret now (bearer tok) sid status st).2).1.status = 201 ∧
    (postEmargement secret now (bearer tok) sid status
      (postEmargement secret now (bearer tok) sid status st).2).2.emargement =
      st.emargement ++
        [{ id := st.nextEmargementId, session_id := sid, etudiant_id := uid,
           status := status },
         { id := st.nextEmargementId + 1, session_id := sid, etudiant_id := uid,
           status := status }] ∧
    ({ id := st.nextEmargementId, session_id := sid, etudiant_id := uid,
       status := status } : Emargement) ≠
      { id := st.nextEmargementId + 1, session_id := sid, etudiant_id := uid,
        status := status } := by
  refine ⟨?_, ?_, ?_, ?_⟩ <;>
    simp [postEmargement, insertEmargement, authenticateJWT, extractToken,
      bearer, requireRole, hv, hsess, huser]

/-- C6 witness: the student of the fixture store marks attendance twice for
session 10; both calls answer 201 and the table ends with the two distinct
rows of ids 1 and 2. -/
theorem markAttendance_twice_two_rows_witness :
    (postEmargement "s" 0 (bearer (jwtSign "s" 0 2 "etudiant")) 10 true
      exStore).1.status = 201 ∧
    (postEmargement "s" 0 (bearer (jwtSign "s" 0 2 "etudiant")) 10 true
      (postEmargement "s" 0 (bearer (jwtSign "s" 0 2 "etudiant")) 10 true
        exStore).2).1.status = 201 ∧
    (postEmargement "s" 0 (bearer (jwtSign "s" 0 2 "etudiant")) 10 true
      (postEmargement "s" 0 (bearer (jwtSign "s" 0 2 "etudiant")) 10 true
        exStore).2).2.emargement =
      exStore.emargement ++
        [{ id := 1, session_id := 10, etudiant_id := 2, status := true },
         { id := 2, session_id := 10, etudiant_id := 2, status := true }] ∧
    ({ id := 1, session_id := 10, etudiant_id := 2, status := true } : Emargement) ≠
      { id := 2, session_id := 10, etudiant_id := 2, status := true } :=
  markAttendance_twice_two_rows "s" 0 exStore (jwtSign "s" 0 2 "etudiant")
    2 10 true (by decide) (by decide) (by decide)

/-- C7: a valid token of role formateur with any user id whatsoever makes the
update route overwrite the title and date of the matching session row
unconditionally and answer 200; no check relates the caller id to the
formateur_id stored on the session, so any trainer may edit any session. -/
theorem update_no_ownership_check
    (secret : String) (now : Nat) (st : Store) (tok : SignedToken)
    (uid sid : Nat) (title date : String)
    (hv : jwtVerify tok secret now = some { id := uid, role := "formateur" }) :
    putSessionById secret now (bearer tok) sid title date st =
      ({ status := 200, body := .text "Session updated successfully" },
       { st with
          sessions := st.sessions.map (fun s =>
            if s.id == sid then { s with title := title, date := date } else s) }) := by
  simp [putSessionById, authenticateJWT, extractToken, bearer, requireRole, hv]

/-- C7 witness: trainer id 5, who owns nothing in the fixture store, edits
session 10 owned by trainer 1; the route answers 200 and the row is
overwritten while keeping formateur_id 1. -/
theorem update_no_ownership_check_witness :
    putSessionById "s" 0 (bearer (jwtSign "s" 0 5 "formateur")) 10 "Stolen"
        "2026-02-02" exStore =
      ({ status := 200, body := .text "Session updated successfully" },
       { exStore with
          sessions := [{ id := 10, title := "Stolen", date := "2026-02-02",
                         formateur_id := 1 }] }) := by
  have h := update_no_ownership_check "s" 0 exStore (jwtSign "s" 0 5 "formateur")
    5 10 "Stolen" "2026-02-02" (by decide)
  rw [h]
  decide

/-- C8: the attendance list route invoked with a valid trainer token answers
200 with exactly the attendance rows of the requested session, the empty
array included; and under the foreign-key invariant, a session id matching no
stored session yields the empty array rather than an error. -/
theorem list_attendance_empty_ok
    (secret : String) (now : Nat) (st : Store) (tok : SignedToken)
    (uid sid : Nat)
    (hv : jwtVerify tok secret now = some { id := uid, role := "formateur" }) :
    getEmargement secret now (bearer tok) sid st =
      { status := 200,
        body := .jsonEmargement (st.emargement.filter (fun e => e.session_id == sid)) } ∧
    (emargementFKOk st = true → st.sessions.any (fun s => s.id == sid) = false →
      st.emargement.filter (fun e => e.session_id == sid) = []) := by
  constructor
  · simp [getEmargement, authenticateJWT, extractToken, bearer, requireRole, hv]
  · intro hfk hno
    rw [List.filter_eq_nil_iff]
    intro e he hsid
    simp only [emargementFKOk, List.all_eq_true] at hfk
    have hs := hfk e he
    have hid : e.session_id = sid := by simpa using hsid
    rw [hid] at hs
    simp [hno] at hs

/-- C8 witness: in the fixture store, which holds no attendance row, the
trainer lists the attendance of session 10 and of the nonexistent session 99
and receives 200 with the empty array both times. -/
theorem list_attendance_empty_ok_witness :
    getEmargement "s" 0 (bearer (jwtSign "s" 0 1 "formateur")) 99 exStore =
      { status := 200,
        body := .jsonEmargement
          (exStore.emargement.filter (fun e => e.session_id == 99)) } ∧
    exStore.emargement.filter (fun e => e.session_id == 99) = [] :=
  ⟨(list_attendance_empty_ok "s" 0 exStore (jwtSign "s" 0 1 "formateur") 1 99
      (by decide)).1,
   (list_attendance_empty_ok "s" 0 exStore (jwtSign "s" 0 1 "formateur") 1 99
      (by decide)).2 (by decide) (by decide)⟩

/-- C9: every successful login answers 200 with exactly the token signed over
the claim set of the stored user id and role, whose expiry is one hour past
the signing time; verifying that token at signing time decodes exactly that
claim set. -/
theorem login_token_claims
    (verify : String → String → Bool) (secret : String) (now : Nat)
    (email password : String) (st : Store) (u : User)
    (hu : findUserByEmail st email = some u)
    (hp : verify password u.password = true) :
    postAuthLogin verify secret now email password st =
      { status := 200, body := .jsonToken (jwtSign secret now u.id u.role) } ∧
    (jwtSign secret now u.id u.role).id = u.id ∧
    (jwtSign secret now u.id u.role).role = u.role ∧
    (jwtSign secret now u.id u.role).exp = now + 3600 ∧
    jwtVerify (jwtSign secret now u.id u.role) secret now =
      some { id := u.id, role := u.role } := by
  refine ⟨by simp [postAuthLogin, hu, hp], rfl, rfl, rfl, ?_⟩
  have h : now < now + 3600 := by omega
  simp [jwtVerify, jwtSign, h]

/-- C9 witness: alice logs in against the fixture store with the matching
password; the response is 200 with the token over id 1 and role formateur,
which expires at 3600 and decodes back to that identity. -/
theorem login_token_claims_witness :
    postAuthLogin (fun p h => ("HASH" ++ p) == h) "s" 0 "alice@example.com"
        "pw123456" exStore =
      { status := 200, body := .jsonToken (jwtSign "s" 0 1 "formateur") } ∧
    (jwtSign "s" 0 1 "formateur").id = 1 ∧
    (jwtSign "s" 0 1 "formateur").role = "formateur" ∧
    (jwtSign "s" 0 1 "formateur").exp = 3600 ∧
    jwtVerify (jwtSign "s" 0 1 "formateur") "s" 0 =
      some { id := 1, role := "formateur" } :=
  login_token_claims (fun p h => ("HASH" ++ p) == h) "s" 0 "alice@example.com"
    "pw123456" exStore
    { id := 1, name := "Alice", email := "alice@example.com",
      password := "HASHpw123456", role := "formateur" }
    (by decide) (by decide)

/-- C10: for a session id matching no stored row, the update and delete routes
invoked by a trainer still answer 200 with their success texts and leave the
store unchanged (no affected-rows check is made), while the single-session
read answers 404 for the same id. -/
theorem update_delete_nonexistent_id
    (secret : String) (now : Nat) (st : Store) (tok : SignedToken)
    (uid sid : Nat) (title date : String)
    (hv : jwtVerify tok secret now = some { id := uid, role := "formateur" })
    (hno : ∀ s ∈ st.sessions, s.id ≠ sid)
    (hfk : emargementFKOk st = true) :
    putSessionById secret now (bearer tok) sid title date st =
      ({ status := 200, body := .text "Session updated successfully" }, st) ∧
    deleteSessionById secret now (bearer tok) sid st =
      ({ status := 200, body := .text "Session deleted successfully" }, st) ∧
    getSessionById sid st = { status := 404, body := .text "Session not found" } := by
  have hmap : st.sessions.map (fun s =>
      if s.id = sid then { s with title := title, date := date } else s) =
      st.sessions := by
    have h1 : st.sessions.map (fun s =>
        if s.id = sid then { s with title := title, date := date } else s) =
        st.sessions.map id :=
      List.map_congr_left (fun s hs => by simp [hno s hs])
    rw [h1, List.map_id]
  have hfilters : st.sessions.filter (fun s => !(s.id == sid)) = st.sessions :=
    List.filter_eq_self.mpr (fun s hs => by simp [hno s hs])
  have hfiltere : st.emargement.filter (fun e => !(e.session_id == sid)) =
      st.emargement := by
    refine List.filter_eq_self.mpr (fun e he => ?_)
    simp only [emargementFKOk, List.all_eq_true] at hfk
    have hs := hfk e he
    rw [List.any_eq_true] at hs
    obtain ⟨s, hsmem, hsid⟩ := hs
    have : s.id = e.session_id := by simpa using hsid
    simp [← this, hno s hsmem]
  have hfindnil : st.sessions.filter (fun s => s.id == sid) = [] := by
    rw [List.filter_eq_nil_iff]
    intro s hs
    simp [hno s hs]
  refine ⟨?_, ?_, ?_⟩
  · simp [putSessionById, authenticateJWT, extractToken, bearer, requireRole,
      hv, hmap]
  · simp [deleteSessionById, authenticateJWT, extractToken, bearer, requireRole,
      hv, hfilters, hfiltere]
  · simp [getSessionById, hfindnil]

/-- C10 witness: no session of the fixture store has id 99, yet the trainer
update and delete for id 99 answer 200 and leave the store intact, while the
read of id 99 answers 404. -/
theorem update_delete_nonexistent_id_witness :
    putSessionById "s" 0 (bearer (jwtSign "s" 0 1 "formateur")) 99 "T"
        "2026-02-02" exStore =
      ({ status := 200, body := .text "Session updated successfully" }, exStore) ∧
    deleteSessionById "s" 0 (bearer (jwtSign "s" 0 1 "formateur")) 99 exStore =
      ({ status := 200, body := .text "Session deleted successfully" }, exStore) ∧
    getSessionById 99 exStore = { status := 404, body := .text "Session not found" } :=
  update_delete_nonexistent_id "s" 0 exStore (jwtSign "s" 0 1 "formateur") 1 99
    "T" "2026-02-02" (by decide) (by decide) (by decide)
